import Mathlib

/-!
Shallow embedding of the exam-session core of `exam_server.py`
(csteducationindia-design/exam_app).

The SQLite database is modelled as four lists of rows (`DBState`); row
order models SQLite row order (insertion order), so `LIMIT 1` queries
become `List.head?` of a filter.  Python/JSON dictionaries are modelled
as association lists `List (String × String)`; a dict built by assignment
(later keys overwriting earlier ones) is read through `dictGet`, which
returns the value of the last pair with the given key.  Python ints are
`Int` (counts are `Nat`), JSON nulls are `Option`.  `random.shuffle`
(Fisher–Yates over `_randbelow` draws) is modelled by `pyShuffle`,
parameterised by the sequence of random draws.  The single transaction of
`submit_exam` (insert result + delete in-progress row + commit) is
modelled by a `commitOk` flag: the whole write step either applies or
leaves the state untouched.
-/

namespace ExamServer

/-- Row of the `questions` table (also carries the per-exam settings; the
settings-only sentinel row has `question_text = "placeholder"`). -/
structure QuestionRow where
  exam_id : String
  teacher_id : String
  question_text : String
  correct_option : String
  options : List (String × String)
  exam_title : String
  school_name : String
  duration : Int
  allowed_attempts : Int
  passing_percentage : Int
  image_url : Option String
  enable_analysis_report : Int
deriving DecidableEq, Repr

/-- Row of the `students` table. -/
structure StudentRow where
  student_id : String
  teacher_id : String
  student_name : String
deriving DecidableEq, Repr

/-- Row of the `results` table. -/
structure ResultRow where
  result_id : String
  exam_id : String
  student_id : String
  teacher_id : String
  student_name : String
  score : Nat
  answers : List (String × String)
deriving DecidableEq, Repr

/-- Row of the `in_progress_exams` table. -/
structure SessionRow where
  student_id : String
  exam_id : String
  teacher_id : String
  answers : List (String × String)
  question_status : List (String × String)
  time_left : Int
deriving DecidableEq, Repr

/-- The whole database. -/
structure DBState where
  questions : List QuestionRow
  students : List StudentRow
  results : List ResultRow
  sessions : List SessionRow
deriving DecidableEq, Repr

/-- `SELECT ... FROM questions WHERE exam_id = ?`. -/
def examRows (s : DBState) (exam_id : String) : List QuestionRow :=
  s.questions.filter (fun q => q.exam_id == exam_id)

/-- `SELECT ... FROM questions WHERE exam_id = ? AND question_text != "placeholder"`. -/
def realQuestions (s : DBState) (exam_id : String) : List QuestionRow :=
  s.questions.filter (fun q => q.exam_id == exam_id && q.question_text != "placeholder")

/-- `SELECT COUNT(*) FROM results WHERE student_id = ? AND exam_id = ?`. -/
def countResults (s : DBState) (student_id exam_id : String) : Nat :=
  (s.results.filter (fun r => r.student_id == student_id && r.exam_id == exam_id)).length

/-- `SELECT ... FROM in_progress_exams WHERE student_id = ? AND exam_id = ?` (fetchone). -/
def sessionFor (s : DBState) (student_id exam_id : String) : Option SessionRow :=
  (s.sessions.filter (fun r => r.student_id == student_id && r.exam_id == exam_id)).head?

/-- Lookup in a Python dict modelled as an association list built left to
right with later assignments overwriting earlier ones: the value of the
last pair whose key matches. -/
def dictGet (m : List (String × String)) (k : String) : Option String :=
  List.lookup k m.reverse

/-- Swap of two positions of a list (`x[i], x[j] = x[j], x[i]`); out of
range indices leave the list unchanged. -/
def listSwap {α : Type} (l : List α) (i j : Nat) : List α :=
  match l.get? i, l.get? j with
  | some a, some b => (l.set i b).set j a
  | _, _ => l

/-- The loop of CPython `random.shuffle`: for `i = k, k-1, ..., 1` swap
position `i` with position `js i % (i+1)` (the draw of `_randbelow(i+1)`). -/
def fisherYatesAux {α : Type} (js : Nat → Nat) : Nat → List α → List α
  | 0, l => l
  | k + 1, l => fisherYatesAux js k (listSwap l (k + 1) (js (k + 1) % (k + 2)))

/-- `random.shuffle`, parameterised by the sequence of random draws. -/
def pyShuffle {α : Type} (js : Nat → Nat) (l : List α) : List α :=
  fisherYatesAux js (l.length - 1) l

/-- Question record sent to the student by `check_exam_eligibility`
(lines 456-461): text, options and image only — no `correct_option` field. -/
structure PayloadQuestion where
  question_text : String
  options : List (String × String)
  image_url : Option String
deriving DecidableEq, Repr

/-- Projection of a question row to its student-visible part. -/
def toPayloadQuestion (q : QuestionRow) : PayloadQuestion :=
  { question_text := q.question_text, options := q.options, image_url := q.image_url }

/-- The `exam_data` object of the session-start response. -/
structure ExamData where
  exam_title : String
  school_name : String
  duration : Int
  allowed_attempts : Int
  passing_percentage : Int
  enable_analysis_report : Bool
  questions : List PayloadQuestion
  answers : List (String × String)
  question_status : List (String × String)
  time_left : Int
  attempt_number : Nat
deriving DecidableEq, Repr

/-- Successful response of `check_exam_eligibility`. -/
structure StartPayload where
  student_name : String
  teacher_id : String
  exam_data : ExamData
deriving DecidableEq, Repr

/-- Failure modes of `check_exam_eligibility`.  `pyCrash` stands for an
unhandled Python exception (HTTP 500). -/
inductive StartError where
  | examNotFound
  | studentNotFound
  | examSettingsNotFound
  | attemptsExhausted (attempts_taken : Nat)
  | noQuestions
  | pyCrash
deriving DecidableEq, Repr

/-- `check_exam_eligibility` (`POST /api/exam/start`), lines 409-491.
The function only reads the database; `js` supplies the random draws of
`random.shuffle`. -/
def startSession (s : DBState) (student_id exam_id : String) (js : Nat → Nat) :
    Except StartError StartPayload :=
  match (examRows s exam_id).head? with
  | none => .error .examNotFound
  | some exam_teacher =>
    if !(s.students.any fun st =>
        st.student_id == student_id && st.teacher_id == exam_teacher.teacher_id) then
      .error .studentNotFound
    else
      match (examRows s exam_id).head? with
      | none => .error .examSettingsNotFound
      | some exam_settings =>
        let attempts_taken := countResults s student_id exam_id
        if (attempts_taken : Int) ≥ exam_settings.allowed_attempts then
          .error (.attemptsExhausted attempts_taken)
        else
          match (s.students.filter (fun st => st.student_id == student_id)).head? with
          | none => .error .pyCrash
          | some student_data =>
            let exam_data_rows := realQuestions s exam_id
            if exam_data_rows.isEmpty then
              .error .noQuestions
            else
              let questions_list := pyShuffle js (exam_data_rows.map toPayloadQuestion)
              let in_progress := sessionFor s student_id exam_id
              .ok
                { student_name := student_data.student_name
                  teacher_id := student_data.teacher_id
                  exam_data :=
                    { exam_title := exam_settings.exam_title
                      school_name := exam_settings.school_name
                      duration := exam_settings.duration
                      allowed_attempts := exam_settings.allowed_attempts
                      passing_percentage := exam_settings.passing_percentage
                      enable_analysis_report := exam_settings.enable_analysis_report != 0
                      questions := questions_list
                      answers := match in_progress with
                        | some row => row.answers
                        | none => []
                      question_status := match in_progress with
                        | some row => row.question_status
                        | none => []
                      time_left := match in_progress with
                        | some row => row.time_left
                        | none => exam_settings.duration * 60
                      attempt_number := attempts_taken + 1 } }

/-- The session-start endpoint as a state transition: the handler issues
no writes, so the database component is returned unchanged. -/
def startSessionOp (s : DBState) (student_id exam_id : String) (js : Nat → Nat) :
    DBState × Except StartError StartPayload :=
  (s, startSession s student_id exam_id js)

/-- Request body of `save_progress`; `none` models a missing / null field. -/
structure SaveReq where
  student_id : Option String
  exam_id : Option String
  teacher_id : Option String
  answers : Option (List (String × String))
  time_left : Option Int
  question_status : Option (List (String × String))
deriving DecidableEq, Repr

/-- Responses of `save_progress`. -/
inductive SaveResult where
  | ok
  | validationError
deriving DecidableEq, Repr

/-- The guard `all([student_id, exam_id, teacher_id, answers,
time_left is not None, question_status])` of line 504: every field present
and Python-truthy (empty strings and empty dicts are falsy; `time_left`
is only tested against `None`). -/
def saveReqValid (r : SaveReq) : Bool :=
  (match r.student_id with | some v => v != "" | none => false) &&
  (match r.exam_id with | some v => v != "" | none => false) &&
  (match r.teacher_id with | some v => v != "" | none => false) &&
  (match r.answers with | some v => !v.isEmpty | none => false) &&
  r.time_left.isSome &&
  (match r.question_status with | some v => !v.isEmpty | none => false)

/-- `save_progress` (`POST /api/save-progress`), lines 493-519:
validation then `INSERT OR REPLACE` keyed on (student_id, exam_id). -/
def saveProgress (s : DBState) (r : SaveReq) : DBState × SaveResult :=
  if saveReqValid r then
    match r.student_id, r.exam_id, r.teacher_id, r.answers, r.time_left, r.question_status with
    | some sid, some eid, some tid, some ans, some tl, some qstat =>
      ({ s with sessions :=
          (s.sessions.filter fun row => !(row.student_id == sid && row.exam_id == eid)) ++
          [{ student_id := sid, exam_id := eid, teacher_id := tid,
             answers := ans, question_status := qstat, time_left := tl }] },
       .ok)
    | _, _, _, _, _, _ => (s, .validationError)
  else
    (s, .validationError)

/-- Request body of `submit_exam`. -/
structure SubmitReq where
  exam_id : String
  student_id : String
  student_name : String
  teacher_id : String
  answers : List (String × String)
deriving DecidableEq, Repr

/-- One record of the per-question analysis report (lines 584-588). -/
structure AnalysisRecord where
  question_text : String
  options : List (String × String)
  student_answer : Option String
  correct_answer : Option String
  is_correct : Bool
deriving DecidableEq, Repr

/-- Successful response of `submit_exam`. -/
structure SubmitResponse where
  score : Nat
  analysis_report : List AnalysisRecord
deriving DecidableEq, Repr

/-- Failure modes of `submit_exam` (both HTTP 500). -/
inductive SubmitError where
  | noQuestions
  | submissionFailed
deriving DecidableEq, Repr

/-- The dict comprehension
`{row['question_text']: row['correct_option'] for row in all_questions}`. -/
def correctAnswersMap (qs : List QuestionRow) : List (String × String) :=
  qs.map fun q => (q.question_text, q.correct_option)

/-- One iteration of the grading loop of lines 577-588 for a question. -/
def gradeRecord (answers : List (String × String)) (cmap : List (String × String))
    (q : QuestionRow) : AnalysisRecord :=
  let student_answer_key := dictGet answers q.question_text
  let correct_answer_key := dictGet cmap q.question_text
  { question_text := q.question_text
    options := q.options
    student_answer := student_answer_key
    correct_answer := correct_answer_key
    is_correct := student_answer_key == correct_answer_key }

/-- The accumulated `score` of the grading loop over a question list. -/
def gradeScore (answers : List (String × String)) (qs : List QuestionRow) : Nat :=
  qs.countP fun q =>
    dictGet answers q.question_text == dictGet (correctAnswersMap qs) q.question_text

/-- `submit_exam` (`POST /api/submit/exam`), lines 553-606.  `result_id`
is the fresh `uuid.uuid4()`; `commitOk` models the single transaction of
the insert + delete + commit: if it fails, the exception handler returns
HTTP 500 and the closed connection rolls both writes back. -/
def submitExam (s : DBState) (r : SubmitReq) (result_id : String) (commitOk : Bool) :
    DBState × Except SubmitError SubmitResponse :=
  let all_questions := realQuestions s r.exam_id
  if all_questions.isEmpty then
    (s, .error .noQuestions)
  else
    let cmap := correctAnswersMap all_questions
    let score := gradeScore r.answers all_questions
    let analysis_report := all_questions.map (gradeRecord r.answers cmap)
    if commitOk then
      ({ s with
          results := s.results ++
            [{ result_id := result_id, exam_id := r.exam_id, student_id := r.student_id,
               teacher_id := r.teacher_id, student_name := r.student_name,
               score := score, answers := r.answers }]
          sessions := s.sessions.filter fun row =>
            !(row.student_id == r.student_id && row.exam_id == r.exam_id) },
       .ok { score := score, analysis_report := analysis_report })
    else
      (s, .error .submissionFailed)

/-- Question record returned by `get_questions_by_exam` (lines 532-539):
it includes the `correct_option`. -/
structure TeacherQuestionView where
  question_text : String
  correct_option : String
  options : List (String × String)
  image_url : Option String
deriving DecidableEq, Repr

/-- Projection of a question row to the `get_questions_by_exam` record. -/
def toTeacherView (q : QuestionRow) : TeacherQuestionView :=
  { question_text := q.question_text, correct_option := q.correct_option,
    options := q.options, image_url := q.image_url }

/-- `get_questions_by_exam` (`GET /api/questions/by-exam/<exam_id>`),
lines 521-541.  The route carries no caller identity at all: the only
input besides the database is the exam id. -/
def getQuestionsByExam (s : DBState) (exam_id : String) : List TeacherQuestionView :=
  (realQuestions s exam_id).map toTeacherView

deriving instance DecidableEq for Except

/-- Question texts of a list are pairwise distinct (the PRIMARY KEY
(exam_id, question_text) of the `questions` table guarantees this for
the rows of one exam). -/
def textsNodup (qs : List QuestionRow) : Prop :=
  (qs.map fun q => q.question_text).Nodup

instance (qs : List QuestionRow) : Decidable (textsNodup qs) := by
  unfold textsNodup; infer_instance

/-- Whether an `Except` value is a success. -/
def exceptIsOk {ε α : Type} : Except ε α → Bool
  | .ok _ => true
  | .error _ => false

/-! Concrete fixture states used by witnesses and counterexamples. -/

/-- Sentinel settings row of exam `"e"` (teacher `"t"`, 1 allowed attempt). -/
def phRow : QuestionRow :=
  { exam_id := "e", teacher_id := "t", question_text := "placeholder", correct_option := "A",
    options := [], exam_title := "T", school_name := "S", duration := 10,
    allowed_attempts := 1, passing_percentage := 50, image_url := none,
    enable_analysis_report := 0 }

/-- First real question of exam `"e"`: correct option `"A"`. -/
def q1Row : QuestionRow :=
  { phRow with
    question_text := "Q1"
    correct_option := "A"
    options := [("A", "1"), ("B", "2")] }

/-- Second real question of exam `"e"`: correct option `"B"`. -/
def q2Row : QuestionRow :=
  { phRow with
    question_text := "Q2"
    correct_option := "B"
    options := [("A", "1"), ("B", "2")] }

/-- A student of teacher `"t"`. -/
def aliceRow : StudentRow :=
  { student_id := "stu", teacher_id := "t", student_name := "Alice" }

/-- A completed attempt of `"stu"` at exam `"e"`. -/
def res1 : ResultRow :=
  { result_id := "r1", exam_id := "e", student_id := "stu", teacher_id := "t",
    student_name := "Alice", score := 1, answers := [] }

/-- An in-progress session of `"stu"` at exam `"e"` with 300 seconds left. -/
def sessRow : SessionRow :=
  { student_id := "stu", exam_id := "e", teacher_id := "t",
    answers := [("Q1", "A")], question_status := [("Q1", "answered")], time_left := 300 }

/-- Exam `"e"` with two questions, one student, no attempts yet. -/
def stateBase : DBState :=
  { questions := [phRow, q1Row, q2Row], students := [aliceRow], results := [], sessions := [] }

/-- Same as `stateBase` but the single allowed attempt is already used. -/
def stateOneResult : DBState := { stateBase with results := [res1] }

/-- Same as `stateBase` but with a saved in-progress session. -/
def stateWithSession : DBState := { stateBase with sessions := [sessRow] }

/-- Exam `"e"` with only the sentinel row: no real questions. -/
def stateNoQuestions : DBState :=
  { questions := [phRow], students := [aliceRow], results := [], sessions := [] }

/-- A submission of `"stu"` for exam `"e"` answering Q1 with `"A"`. -/
def submitReq1 : SubmitReq :=
  { exam_id := "e", student_id := "stu", student_name := "Alice", teacher_id := "t",
    answers := [("Q1", "A")] }

/-- A fixed sequence of random draws (all zero) for concrete shuffle runs. -/
def jsZero : Nat → Nat := fun _ => 0

/-- The empty database. -/
def emptyState : DBState :=
  { questions := [], students := [], results := [], sessions := [] }

/-- A `save_progress` request with every field present but with an empty
answers map. -/
def saveReqEmptyAnswers : SaveReq :=
  { student_id := some "stu", exam_id := some "e", teacher_id := some "t",
    answers := some [], time_left := some 100,
    question_status := some [("Q1", "answered")] }

/-- A fully populated `save_progress` request matching `sessRow`. -/
def saveReq1 : SaveReq :=
  { student_id := some "stu", exam_id := some "e", teacher_id := some "t",
    answers := some [("Q1", "A")], time_left := some 300,
    question_status := some [("Q1", "answered")] }

/-- The question bank with every row's `correct_option` rewritten by `f`
(all other columns unchanged). -/
def setCorrectOptions (f : QuestionRow → String) (s : DBState) : DBState :=
  { s with questions := s.questions.map fun q => { q with correct_option := f q } }

/-- The question bank with every row's `enable_analysis_report` flag
rewritten by `f` (all other columns unchanged). -/
def setAnalysisFlags (f : QuestionRow → Int) (s : DBState) : DBState :=
  { s with questions := s.questions.map fun q => { q with enable_analysis_report := f q } }

/-- Reachability of the `NotFound: exam-settings` failure of
`check_exam_eligibility`: some database and request make the handler
return it. -/
def examSettingsFailureReachable : Prop :=
  ∃ (s : DBState) (sid eid : String) (js : Nat → Nat),
    startSession s sid eid js = .error .examSettingsNotFound

/-! General lemmas about the embedded operations. -/

theorem listSwap_perm {α : Type} [DecidableEq α] (l : List α) (i j : Nat) :
    (listSwap l i j).Perm l := by
  unfold listSwap
  split
  case h_2 => exact List.Perm.refl l
  case h_1 a b h₁ h₂ =>
    obtain ⟨hi, ha⟩ := List.get?_eq_some.mp h₁
    obtain ⟨hj, hb⟩ := List.get?_eq_some.mp h₂
    have ha' : l[i] = a := by simpa using ha
    have hb' : l[j] = b := by simpa using hb
    have hj2 : j < (l.set i b).length := by simpa using hj
    have hset : (l.set i b)[j] = b := by
      by_cases hij : i = j
      · subst hij; exact List.getElem_set_self hj2
      · rw [List.getElem_set_ne hij]; exact hb'
    rw [List.perm_iff_count]
    intro x
    rw [List.count_set a x (l.set i b) j hj2, List.count_set b x l i hi, hset, ha']
    by_cases hax : a = x
    · have hmem : x ∈ l := by rw [← hax, ← ha']; exact List.getElem_mem hi
      have hc : 0 < List.count x l := List.count_pos_iff.mpr hmem
      by_cases hbx : b = x <;> simp [hax, hbx] <;> omega
    · by_cases hbx : b = x <;> simp [hax, hbx] <;> omega

theorem fisherYatesAux_perm {α : Type} [DecidableEq α] (js : Nat → Nat) :
    ∀ (k : Nat) (l : List α), (fisherYatesAux js k l).Perm l
  | 0, l => List.Perm.refl l
  | k + 1, l =>
      (fisherYatesAux_perm js k (listSwap l (k + 1) (js (k + 1) % (k + 2)))).trans
        (listSwap_perm l (k + 1) (js (k + 1) % (k + 2)))

theorem pyShuffle_perm {α : Type} [DecidableEq α] (js : Nat → Nat) (l : List α) :
    (pyShuffle js l).Perm l :=
  fisherYatesAux_perm js (l.length - 1) l

theorem dictGet_cons (m : List (String × String)) (a v k : String) :
    dictGet ((a, v) :: m) k = (dictGet m k).or (if k == a then some v else none) := by
  unfold dictGet
  rw [List.reverse_cons, List.lookup_append]
  congr 1
  simp [List.lookup]
  split <;> simp_all

theorem dictGet_append_single (m : List (String × String)) (a v k : String) :
    dictGet (m ++ [(a, v)]) k = if k == a then some v else dictGet m k := by
  unfold dictGet
  rw [List.reverse_append]
  simp [List.lookup]
  split <;> simp_all

theorem dictGet_eq_none_of_not_mem_keys (m : List (String × String)) (k : String)
    (h : k ∉ m.map Prod.fst) : dictGet m k = none := by
  unfold dictGet
  rw [List.lookup_eq_none_iff]
  intro p hp
  simp only [List.mem_reverse] at hp
  have hmem : p.1 ∈ m.map Prod.fst := List.mem_map_of_mem Prod.fst hp
  simp only [bne_iff_ne, ne_eq]
  intro hk
  exact h (hk ▸ hmem)

theorem dictGet_correctAnswersMap :
    ∀ {qs : List QuestionRow}, textsNodup qs → ∀ {q : QuestionRow}, q ∈ qs →
      dictGet (correctAnswersMap qs) q.question_text = some q.correct_option := by
  intro qs
  induction qs with
  | nil => intro _ q hq; cases hq
  | cons x t ih =>
    intro hnd q hq
    rw [textsNodup, List.map_cons, List.nodup_cons] at hnd
    obtain ⟨hx, ht⟩ := hnd
    rw [show correctAnswersMap (x :: t) =
        (x.question_text, x.correct_option) :: correctAnswersMap t from rfl]
    rw [dictGet_cons]
    rcases List.mem_cons.mp hq with rfl | hqt
    · have hnone : dictGet (correctAnswersMap t) q.question_text = none := by
        apply dictGet_eq_none_of_not_mem_keys
        intro hmem
        rw [correctAnswersMap, List.map_map] at hmem
        exact hx hmem
      rw [hnone]
      simp
    · rw [ih ht hqt]
      simp

theorem gradeScore_eq_countP_correct (answers : List (String × String))
    {qs : List QuestionRow} (hnd : textsNodup qs) :
    gradeScore answers qs =
      qs.countP fun q => dictGet answers q.question_text == some q.correct_option := by
  unfold gradeScore
  apply List.countP_congr
  intro q hq
  rw [dictGet_correctAnswersMap hnd hq]

/-! Claim theorems. -/

/-- C1 (counterexample): the attempt-count invariant fails on the code as
claimed.  In `stateOneResult` the single allowed attempt of exam `"e"` is
already used (`countResults = 1 = allowed_attempts`), yet `submit_exam`
succeeds — it performs no attempt-limit check — and pushes the Result
count for (`"stu"`, `"e"`) to 2, past the limit. -/
theorem C1_submit_exceeds_attempt_limit :
    phRow.allowed_attempts = 1 ∧
    (examRows stateOneResult "e").head? = some phRow ∧
    countResults stateOneResult "stu" "e" = 1 ∧
    exceptIsOk (submitExam stateOneResult submitReq1 "r2" true).2 = true ∧
    countResults (submitExam stateOneResult submitReq1 "r2" true).1 "stu" "e" = 2 := by
  decide

/-- C1 (amended): `check_exam_eligibility` refuses with
`Forbidden: attempts-exhausted` (carrying `attempts_taken`) as soon as
`attempts_taken ≥ allowed_attempts`, and the call writes nothing, so it
creates no Result; the limit is however not enforced by `submit_exam`,
which can push the count past it. -/
theorem C1_start_refuses_when_attempts_exhausted
    (s : DBState) (sid eid : String) (js : Nat → Nat) (row : QuestionRow)
    (hrow : (examRows s eid).head? = some row)
    (hstud : s.students.any
      (fun st => st.student_id == sid && st.teacher_id == row.teacher_id) = true)
    (hatt : (countResults s sid eid : Int) ≥ row.allowed_attempts) :
    startSessionOp s sid eid js =
      (s, .error (.attemptsExhausted (countResults s sid eid))) := by
  unfold startSessionOp startSession
  rw [hrow]
  simp [hstud, hatt]

/-- C1 witness: the amended theorem applied to `stateOneResult`. -/
theorem C1_start_refuses_witness :
    startSessionOp stateOneResult "stu" "e" jsZero =
      (stateOneResult, .error (.attemptsExhausted 1)) := by
  have h := C1_start_refuses_when_attempts_exhausted stateOneResult "stu" "e" jsZero phRow
    (by decide) (by decide) (by decide)
  rw [h]
  decide

/-- C2: for a submission against a non-empty question set (with the
distinct question texts guaranteed by the PRIMARY KEY), `submit_exam`
succeeds and its score is the number of questions whose `correct_option`
equals the answer looked up by `question_text` in the submitted map;
moreover an answers entry whose key matches no question text leaves the
score unchanged, and unanswered questions merely fail the comparison, so
neither causes an error. -/
theorem C2_score_counts_matching_answers
    (s : DBState) (r : SubmitReq) (rid : String)
    (hne : realQuestions s r.exam_id ≠ [])
    (hnd : textsNodup (realQuestions s r.exam_id)) :
    (∃ resp, (submitExam s r rid true).2 = .ok resp ∧
      resp.score = (realQuestions s r.exam_id).countP
        (fun q => dictGet r.answers q.question_text == some q.correct_option)) ∧
    (∀ k v, k ∉ (realQuestions s r.exam_id).map (fun q => q.question_text) →
      gradeScore (r.answers ++ [(k, v)]) (realQuestions s r.exam_id) =
        gradeScore r.answers (realQuestions s r.exam_id)) := by
  have hempty : (realQuestions s r.exam_id).isEmpty = false := by
    simpa [List.isEmpty_iff] using hne
  have hok : (submitExam s r rid true).2 =
      .ok { score := gradeScore r.answers (realQuestions s r.exam_id)
            analysis_report := (realQuestions s r.exam_id).map
              (gradeRecord r.answers (correctAnswersMap (realQuestions s r.exam_id))) } := by
    simp [submitExam, hempty]
  constructor
  · exact ⟨_, hok, gradeScore_eq_countP_correct r.answers hnd⟩
  · intro k v hk
    unfold gradeScore
    apply List.countP_congr
    intro q hq
    rw [dictGet_append_single]
    have hqk : (q.question_text == k) = false := by
      simp only [beq_eq_false_iff_ne, ne_eq]
      intro h
      exact hk (h ▸ List.mem_map_of_mem _ hq)
    rw [hqk]
    simp

/-- C2 witness: the spec's concrete scenario — `Q1` (correct `"A"`), `Q2`
(correct `"B"`), submitted answers `{Q1: "A"}`: score 1, no error. -/
theorem C2_score_witness :
    ∃ resp, (submitExam stateBase submitReq1 "r2" true).2 = .ok resp ∧ resp.score = 1 := by
  obtain ⟨⟨resp, hok, hscore⟩, _⟩ :=
    C2_score_counts_matching_answers stateBase submitReq1 "r2" (by decide) (by decide)
  refine ⟨resp, hok, ?_⟩
  rw [hscore]
  decide

/-- C3: when the transactional step succeeds, `submit_exam` produces
exactly the state with one new Result row appended — carrying the given
fresh id, the computed score and the full submitted answer map — and with
the InProgressSession row for (student_id, exam_id) deleted; a fresh id
yields exactly one row with that id.  When the transactional step fails,
the state is completely unchanged and the error is the Internal
`submission-failed`. -/
theorem C3_submit_atomic_insert_and_delete
    (s : DBState) (r : SubmitReq) (rid : String)
    (hne : realQuestions s r.exam_id ≠ []) :
    (submitExam s r rid true =
      ({ s with
          results := s.results ++
            [{ result_id := rid, exam_id := r.exam_id, student_id := r.student_id,
               teacher_id := r.teacher_id, student_name := r.student_name,
               score := gradeScore r.answers (realQuestions s r.exam_id),
               answers := r.answers }]
          sessions := s.sessions.filter fun row =>
            !(row.student_id == r.student_id && row.exam_id == r.exam_id) },
       .ok { score := gradeScore r.answers (realQuestions s r.exam_id)
             analysis_report := (realQuestions s r.exam_id).map
               (gradeRecord r.answers (correctAnswersMap (realQuestions s r.exam_id))) })) ∧
    (rid ∉ s.results.map (fun row => row.result_id) →
      ((submitExam s r rid true).1.results.filter
        (fun row => row.result_id == rid)).length = 1) ∧
    (submitExam s r rid false = (s, .error .submissionFailed)) := by
  have hempty : (realQuestions s r.exam_id).isEmpty = false := by
    simpa [List.isEmpty_iff] using hne
  refine ⟨?_, ?_, ?_⟩
  · simp [submitExam, hempty]
  · intro hfresh
    have hnil : s.results.filter (fun row => row.result_id == rid) = [] := by
      rw [List.filter_eq_nil_iff]
      intro a ha h
      exact hfresh ((beq_iff_eq.mp h) ▸ List.mem_map_of_mem _ ha)
    simp [submitExam, hempty, List.filter_append, hnil]
  · simp [submitExam, hempty]

/-- C3 witness: the atomicity theorem applied to `stateWithSession`. -/
theorem C3_submit_atomic_witness :
    (submitExam stateWithSession submitReq1 "r2" false = (stateWithSession, .error .submissionFailed)) ∧
    ((submitExam stateWithSession submitReq1 "r2" true).1.sessions = []) ∧
    ((submitExam stateWithSession submitReq1 "r2" true).1.results.filter
      (fun row => row.result_id == "r2")).length = 1 := by
  obtain ⟨hok, hfresh, hfail⟩ :=
    C3_submit_atomic_insert_and_delete stateWithSession submitReq1 "r2" (by decide)
  refine ⟨hfail, ?_, hfresh (by decide)⟩
  rw [hok]
  decide

/-- C4: a successful `check_exam_eligibility` payload resumes the stored
session exactly — when an `in_progress_exams` row exists for
(student_id, exam_id) the payload's answers / question_status / time_left
are that row's values, and only when none exists are they blank with
`time_left = duration * 60`; and a valid `save_progress` leaves exactly
its own values as the stored row for the key, so a resume returns the
values last written. -/
theorem C4_resume_returns_saved_state :
    (∀ (s : DBState) (sid eid : String) (js : Nat → Nat) (p : StartPayload),
      startSession s sid eid js = .ok p →
      (∀ row, sessionFor s sid eid = some row →
        p.exam_data.answers = row.answers ∧
        p.exam_data.question_status = row.question_status ∧
        p.exam_data.time_left = row.time_left) ∧
      (sessionFor s sid eid = none →
        ∀ settings, (examRows s eid).head? = some settings →
          p.exam_data.answers = [] ∧
          p.exam_data.question_status = [] ∧
          p.exam_data.time_left = settings.duration * 60)) ∧
    (∀ (s : DBState) (r : SaveReq) (sid eid tid : String)
        (ans qstat : List (String × String)) (tl : Int),
      r.student_id = some sid → r.exam_id = some eid → r.teacher_id = some tid →
      r.answers = some ans → r.time_left = some tl → r.question_status = some qstat →
      saveReqValid r = true →
      sessionFor (saveProgress s r).1 sid eid =
        some { student_id := sid, exam_id := eid, teacher_id := tid,
               answers := ans, question_status := qstat, time_left := tl }) := by
  constructor
  · intro s sid eid js p h
    obtain ⟨row0, hrow0⟩ : ∃ row0, (examRows s eid).head? = some row0 := by
      cases hE : (examRows s eid).head? with
      | none => unfold startSession at h; rw [hE] at h; simp at h
      | some row => exact ⟨row, rfl⟩
    simp only [startSession, hrow0] at h
    split at h
    · exact absurd h (by simp)
    · split at h
      · exact absurd h (by simp)
      · split at h
        · exact absurd h (by simp)
        · split at h
          · exact absurd h (by simp)
          · injection h with hp
            subst hp
            constructor
            · intro row hrow
              simp [hrow]
            · intro hnone settings2 hsettings2
              rw [hrow0] at hsettings2
              injection hsettings2 with hs
              subst hs
              simp [hnone]
  · intro s r sid eid tid ans qstat tl h1 h2 h3 h4 h5 h6 hv
    obtain ⟨f1, f2, f3, f4, f5, f6⟩ := r
    simp only at h1 h2 h3 h4 h5 h6
    subst h1 h2 h3 h4 h5 h6
    have hfalse : (fun (a : SessionRow) =>
        (a.student_id == sid && a.exam_id == eid) &&
        !(a.student_id == sid && a.exam_id == eid)) = fun _ => false := by
      funext a
      exact Bool.and_not_self _
    simp [saveProgress, hv, sessionFor, List.filter_append, List.filter_filter, hfalse]

/-- C4 witness: the resume theorem at a concrete state — after saving
progress with `time_left = 300`, a new session start returns exactly the
saved answers, status and remaining time. -/
theorem C4_resume_witness :
    ((startSession stateWithSession "stu" "e" jsZero).map
      (fun p => (p.exam_data.answers, p.exam_data.question_status, p.exam_data.time_left)) =
      .ok ([("Q1", "A")], [("Q1", "answered")], (300 : Int))) ∧
    sessionFor (saveProgress stateBase saveReq1).1 "stu" "e" = some sessRow := by
  constructor
  · cases hE : startSession stateWithSession "stu" "e" jsZero with
    | error e =>
      have hok : exceptIsOk (startSession stateWithSession "stu" "e" jsZero) = true := by decide
      rw [hE] at hok
      exact absurd hok (by simp [exceptIsOk])
    | ok p =>
      obtain ⟨ha, hq, ht⟩ :=
        ((C4_resume_returns_saved_state).1 stateWithSession "stu" "e" jsZero p hE).1
          sessRow (by decide)
      simp [Except.map, ha, hq, ht, sessRow]
  · have h := (C4_resume_returns_saved_state).2 stateBase saveReq1 "stu" "e" "t"
      [("Q1", "A")] [("Q1", "answered")] 300 rfl rfl rfl rfl rfl rfl (by decide)
    simpa [sessRow] using h

theorem isEmpty_map {α β : Type} (f : α → β) (l : List α) :
    (l.map f).isEmpty = l.isEmpty := by
  cases l <;> rfl

theorem realQuestions_setAnalysisFlags (f : QuestionRow → Int) (s : DBState) (eid : String) :
    realQuestions (setAnalysisFlags f s) eid =
      (realQuestions s eid).map (fun q => { q with enable_analysis_report := f q }) := by
  unfold realQuestions setAnalysisFlags
  rw [List.filter_map]
  rfl

theorem correctAnswersMap_map_flags (f : QuestionRow → Int) (qs : List QuestionRow) :
    correctAnswersMap (qs.map (fun q => { q with enable_analysis_report := f q })) =
      correctAnswersMap qs := by
  unfold correctAnswersMap
  rw [List.map_map]
  rfl

theorem gradeScore_map_flags (ans : List (String × String)) (f : QuestionRow → Int)
    (qs : List QuestionRow) :
    gradeScore ans (qs.map (fun q => { q with enable_analysis_report := f q })) =
      gradeScore ans qs := by
  unfold gradeScore
  rw [correctAnswersMap_map_flags, List.countP_map]
  rfl

theorem report_map_flags (ans : List (String × String)) (f : QuestionRow → Int)
    (qs : List QuestionRow) :
    (qs.map (fun q => { q with enable_analysis_report := f q })).map
        (gradeRecord ans (correctAnswersMap
          (qs.map (fun q => { q with enable_analysis_report := f q })))) =
      qs.map (gradeRecord ans (correctAnswersMap qs)) := by
  rw [correctAnswersMap_map_flags, List.map_map]
  rfl

/-- C5: on a non-empty question set a successful submission returns an
analysis report with exactly one record per real question of the exam at
submission time, in the authoritative (database, non-shuffled) order; and
the whole response of `submit_exam` is unchanged under any change of the
`enable_analysis_report` flags, so the report is computed and returned
regardless of that flag. -/
theorem C5_analysis_report_full_and_flag_independent
    (s : DBState) (r : SubmitReq) (rid : String)
    (hne : realQuestions s r.exam_id ≠ []) :
    (∃ resp, (submitExam s r rid true).2 = .ok resp ∧
      resp.analysis_report = (realQuestions s r.exam_id).map
        (gradeRecord r.answers (correctAnswersMap (realQuestions s r.exam_id))) ∧
      resp.analysis_report.length = (realQuestions s r.exam_id).length) ∧
    (∀ (f : QuestionRow → Int) (commitOk : Bool),
      (submitExam (setAnalysisFlags f s) r rid commitOk).2 =
        (submitExam s r rid commitOk).2) := by
  have hempty : (realQuestions s r.exam_id).isEmpty = false := by
    simpa [List.isEmpty_iff] using hne
  constructor
  · have hok : (submitExam s r rid true).2 =
        .ok { score := gradeScore r.answers (realQuestions s r.exam_id)
              analysis_report := (realQuestions s r.exam_id).map
                (gradeRecord r.answers (correctAnswersMap (realQuestions s r.exam_id))) } := by
      simp [submitExam, hempty]
    exact ⟨_, hok, rfl, by simp⟩
  · intro f commitOk
    simp only [submitExam, realQuestions_setAnalysisFlags, isEmpty_map,
      gradeScore_map_flags, report_map_flags]
    cases commitOk <;> simp [hempty]

/-- C5 witness: the report theorem at the two-question fixture exam. -/
theorem C5_analysis_report_witness :
    ∃ resp, (submitExam stateBase submitReq1 "r2" true).2 = .ok resp ∧
      resp.analysis_report.length = 2 := by
  obtain ⟨⟨resp, hok, hrep, hlen⟩, _⟩ :=
    C5_analysis_report_full_and_flag_independent stateBase submitReq1 "r2" (by decide)
  refine ⟨resp, hok, ?_⟩
  rw [hlen]
  decide

theorem saveReqValid_fields {r : SaveReq} (h : saveReqValid r = true) :
    ∃ sid eid tid ans tl qstat,
      r = { student_id := some sid, exam_id := some eid, teacher_id := some tid,
            answers := some ans, time_left := some tl, question_status := some qstat } := by
  obtain ⟨f1, f2, f3, f4, f5, f6⟩ := r
  cases f1 <;> cases f2 <;> cases f3 <;> cases f4 <;> cases f5 <;> cases f6 <;>
    simp [saveReqValid] at h ⊢

/-- C6 (counterexample): a `save_progress` request in which every field is
present — the answers field is the empty map — is still rejected with the
Validation error (and writes nothing), because the handler tests Python
truthiness, not mere presence.  This falsifies the claim's "if and only
if one of its fields is missing". -/
theorem C6_present_empty_answers_rejected :
    saveReqEmptyAnswers.student_id.isSome = true ∧
    saveReqEmptyAnswers.exam_id.isSome = true ∧
    saveReqEmptyAnswers.teacher_id.isSome = true ∧
    saveReqEmptyAnswers.answers.isSome = true ∧
    saveReqEmptyAnswers.time_left.isSome = true ∧
    saveReqEmptyAnswers.question_status.isSome = true ∧
    saveProgress stateBase saveReqEmptyAnswers = (stateBase, .validationError) := by
  decide

/-- C6 (amended): `save_progress` fails with the Validation error exactly
when the request fails Python's truthiness test — a field missing, an
empty student/exam/teacher id, or an empty answers or question_status map
(`time_left` is only tested for presence, so 0 is accepted) — and a
failed validation writes nothing; when the test passes it performs an
upsert keyed by (student_id, exam_id) that fully replaces the prior row's
answers, question_status and time_left. -/
theorem C6_save_progress_validation_and_replace :
    (∀ (s : DBState) (r : SaveReq),
      ((saveProgress s r).2 = .validationError ↔ saveReqValid r = false) ∧
      ((saveProgress s r).2 = .validationError → (saveProgress s r).1 = s)) ∧
    (∀ (s : DBState) (sid eid tid : String)
        (ans qstat : List (String × String)) (tl : Int),
      saveReqValid { student_id := some sid, exam_id := some eid, teacher_id := some tid,
                     answers := some ans, time_left := some tl,
                     question_status := some qstat } = true →
      saveProgress s { student_id := some sid, exam_id := some eid, teacher_id := some tid,
                       answers := some ans, time_left := some tl,
                       question_status := some qstat } =
        ({ s with sessions :=
            (s.sessions.filter fun row => !(row.student_id == sid && row.exam_id == eid)) ++
            [{ student_id := sid, exam_id := eid, teacher_id := tid,
               answers := ans, question_status := qstat, time_left := tl }] },
         .ok)) := by
  constructor
  · intro s r
    by_cases hv : saveReqValid r = true
    · obtain ⟨sid, eid, tid, ans, tl, qstat, rfl⟩ := saveReqValid_fields hv
      simp [saveProgress, hv]
    · have hv' : saveReqValid r = false := by simpa using hv
      unfold saveProgress
      rw [if_neg (by simp [hv'])]
      simp [hv']
  · intro s sid eid tid ans qstat tl hv
    simp [saveProgress, hv]

/-- C6 witness: the amended theorem applied to a valid concrete request:
the stored row is fully replaced by the request's values. -/
theorem C6_save_progress_witness :
    saveProgress stateBase saveReq1 = ({ stateBase with sessions := [sessRow] }, .ok) := by
  have h := (C6_save_progress_validation_and_replace).2 stateBase "stu" "e" "t"
    [("Q1", "A")] [("Q1", "answered")] 300 (by decide)
  have h2 : saveProgress stateBase saveReq1 =
      ({ stateBase with sessions :=
          (stateBase.sessions.filter fun row => !(row.student_id == "stu" && row.exam_id == "e")) ++
          [{ student_id := "stu", exam_id := "e", teacher_id := "t",
             answers := [("Q1", "A")], question_status := [("Q1", "answered")],
             time_left := 300 }] },
       .ok) := h
  rw [h2]
  decide

theorem startSession_never_settings_error (s : DBState) (sid eid : String) (js : Nat → Nat) :
    startSession s sid eid js ≠ .error .examSettingsNotFound := by
  cases hE : (examRows s eid).head? with
  | none => simp [startSession, hE]
  | some row =>
    simp only [startSession, hE]
    split
    · simp
    · split
      · simp
      · split
        · simp
        · split
          · simp
          · simp

/-- C7 (counterexample): the `NotFound: exam-settings` failure mode is not
reachable: no database and no request make `check_exam_eligibility`
return it, because the settings query repeats the very query whose
emptiness was already ruled out by the exam-exists check.  This falsifies
the claim that each of the five preconditions has a reachable failure
mode. -/
theorem C7_exam_settings_failure_unreachable : ¬ examSettingsFailureReachable := by
  rintro ⟨s, sid, eid, js, h⟩
  exact startSession_never_settings_error s sid eid js h

/-- C7 (amended): `check_exam_eligibility` checks its preconditions in
the stated order — exam exists, student owned by the exam's teacher,
exam settings, attempt limit, at least one real question — and four of
the five failure modes are distinct and reachable (`NotFound: exam`,
`NotFound: student-not-authorized`, `Forbidden: attempts-exhausted`
carrying `attempts_taken`, `NotFound: no-questions`); the
`NotFound: exam-settings` mode exists in the code but can never fire once
the exam-exists check has passed. -/
theorem C7_precondition_order_and_reachability :
    (∀ (s : DBState) (sid eid : String) (js : Nat → Nat),
      (examRows s eid).head? = none →
      startSession s sid eid js = .error .examNotFound) ∧
    (∀ (s : DBState) (sid eid : String) (js : Nat → Nat) (row : QuestionRow),
      (examRows s eid).head? = some row →
      s.students.any
        (fun st => st.student_id == sid && st.teacher_id == row.teacher_id) = false →
      startSession s sid eid js = .error .studentNotFound) ∧
    (∀ (s : DBState) (sid eid : String) (js : Nat → Nat) (row : QuestionRow),
      (examRows s eid).head? = some row →
      s.students.any
        (fun st => st.student_id == sid && st.teacher_id == row.teacher_id) = true →
      (countResults s sid eid : Int) ≥ row.allowed_attempts →
      startSession s sid eid js = .error (.attemptsExhausted (countResults s sid eid))) ∧
    (∀ (s : DBState) (sid eid : String) (js : Nat → Nat) (row : QuestionRow),
      (examRows s eid).head? = some row →
      s.students.any
        (fun st => st.student_id == sid && st.teacher_id == row.teacher_id) = true →
      (countResults s sid eid : Int) < row.allowed_attempts →
      realQuestions s eid = [] →
      startSession s sid eid js = .error .noQuestions) ∧
    (startSession emptyState "stu" "e" jsZero = .error .examNotFound ∧
     startSession stateBase "bob" "e" jsZero = .error .studentNotFound ∧
     startSession stateOneResult "stu" "e" jsZero = .error (.attemptsExhausted 1) ∧
     startSession stateNoQuestions "stu" "e" jsZero = .error .noQuestions) := by
  refine ⟨?_, ?_, ?_, ?_, by decide, by decide, by decide, by decide⟩
  · intro s sid eid js hE
    simp [startSession, hE]
  · intro s sid eid js row hE hstud
    simp [startSession, hE, hstud]
  · intro s sid eid js row hE hstud hatt
    simp [startSession, hE, hstud, hatt]
  · intro s sid eid js row hE hstud hlt hq
    obtain ⟨st, hstmem, hstp⟩ := List.any_eq_true.mp hstud
    have hfil : st ∈ s.students.filter (fun t => t.student_id == sid) := by
      rw [List.mem_filter]
      exact ⟨hstmem, (Bool.and_elim_left hstp)⟩
    have hne : s.students.filter (fun t => t.student_id == sid) ≠ [] := by
      intro hnil
      rw [hnil] at hfil
      cases hfil
    obtain ⟨sd, hsd⟩ : ∃ sd, (s.students.filter (fun t => t.student_id == sid)).head? = some sd := by
      cases hh : (s.students.filter (fun t => t.student_id == sid)).head? with
      | none => exact absurd (List.head?_eq_none_iff.mp hh) hne
      | some sd => exact ⟨sd, rfl⟩
    simp [startSession, hE, hstud, not_le.mpr hlt, hsd, hq]

/-- C7 witness: the ordered-precondition theorem applied concretely: an
unknown student is refused with `studentNotFound`, and a question-less
exam with `noQuestions`. -/
theorem C7_precondition_witness :
    startSession stateBase "bob" "e" jsZero = .error .studentNotFound ∧
    startSession stateNoQuestions "stu" "e" jsZero = .error .noQuestions := by
  constructor
  · exact (C7_precondition_order_and_reachability).2.1 stateBase "bob" "e" jsZero phRow
      (by decide) (by decide)
  · exact (C7_precondition_order_and_reachability).2.2.2.1 stateNoQuestions "stu" "e" jsZero
      phRow (by decide) (by decide) (by decide) (by decide)

/-- C8: the question list of a successful session-start payload is a
permutation of the student-visible projections of the exam's real
questions — `random.shuffle` only reorders presentation — and grading
matches answers to the key by `question_text`, so the score of a fixed
answer map is invariant under any permutation of the question list. -/
theorem C8_shuffle_permutation_and_score_order_independent :
    (∀ (s : DBState) (sid eid : String) (js : Nat → Nat) (p : StartPayload),
      startSession s sid eid js = .ok p →
      p.exam_data.questions.Perm ((realQuestions s eid).map toPayloadQuestion)) ∧
    (∀ (answers : List (String × String)) (qs qs2 : List QuestionRow),
      textsNodup qs → qs.Perm qs2 →
      gradeScore answers qs = gradeScore answers qs2) := by
  constructor
  · intro s sid eid js p h
    obtain ⟨row0, hrow0⟩ : ∃ row0, (examRows s eid).head? = some row0 := by
      cases hE : (examRows s eid).head? with
      | none => unfold startSession at h; rw [hE] at h; simp at h
      | some row => exact ⟨row, rfl⟩
    simp only [startSession, hrow0] at h
    split at h
    · exact absurd h (by simp)
    · split at h
      · exact absurd h (by simp)
      · split at h
        · exact absurd h (by simp)
        · split at h
          · exact absurd h (by simp)
          · injection h with hp
            subst hp
            exact pyShuffle_perm js ((realQuestions s eid).map toPayloadQuestion)
  · intro answers qs qs2 hnd hperm
    have hnd2 : textsNodup qs2 := by
      unfold textsNodup at hnd ⊢
      exact (hperm.map (fun q => q.question_text)).nodup_iff.mp hnd
    rw [gradeScore_eq_countP_correct answers hnd, gradeScore_eq_countP_correct answers hnd2]
    exact List.Perm.countP_eq _ hperm

/-- C8 witness: at the two-question fixture, the shuffled payload is a
permutation of the real question set, and swapping the two questions
leaves the score of a fixed answer map unchanged. -/
theorem C8_shuffle_witness :
    ((startSession stateBase "stu" "e" jsZero).map
      (fun p => decide
        (p.exam_data.questions.Perm ((realQuestions stateBase "e").map toPayloadQuestion))) =
      .ok true) ∧
    gradeScore [("Q1", "A")] [q1Row, q2Row] = gradeScore [("Q1", "A")] [q2Row, q1Row] := by
  constructor
  · cases hE : startSession stateBase "stu" "e" jsZero with
    | error e =>
      have hok : exceptIsOk (startSession stateBase "stu" "e" jsZero) = true := by decide
      rw [hE] at hok
      exact absurd hok (by simp [exceptIsOk])
    | ok p =>
      have hperm :=
        (C8_shuffle_permutation_and_score_order_independent).1 stateBase "stu" "e" jsZero p hE
      simp [Except.map, hperm]
  · exact (C8_shuffle_permutation_and_score_order_independent).2 [("Q1", "A")]
      [q1Row, q2Row] [q2Row, q1Row] (by decide) (List.Perm.swap q2Row q1Row [])

theorem head?_map {α β : Type} (f : α → β) (l : List α) :
    (l.map f).head? = l.head?.map f := by
  cases l <;> rfl

theorem examRows_setCorrectOptions (f : QuestionRow → String) (s : DBState) (eid : String) :
    examRows (setCorrectOptions f s) eid =
      (examRows s eid).map (fun q => { q with correct_option := f q }) := by
  unfold examRows setCorrectOptions
  rw [List.filter_map]
  rfl

theorem realQuestions_setCorrectOptions (f : QuestionRow → String) (s : DBState) (eid : String) :
    realQuestions (setCorrectOptions f s) eid =
      (realQuestions s eid).map (fun q => { q with correct_option := f q }) := by
  unfold realQuestions setCorrectOptions
  rw [List.filter_map]
  rfl

theorem toPayload_map_correctOptions (f : QuestionRow → String) (qs : List QuestionRow) :
    (qs.map (fun q => { q with correct_option := f q })).map toPayloadQuestion =
      qs.map toPayloadQuestion := by
  rw [List.map_map]
  rfl

theorem students_setCorrectOptions (f : QuestionRow → String) (s : DBState) :
    (setCorrectOptions f s).students = s.students := rfl

theorem countResults_setCorrectOptions (f : QuestionRow → String) (s : DBState)
    (sid eid : String) : countResults (setCorrectOptions f s) sid eid = countResults s sid eid :=
  rfl

theorem sessionFor_setCorrectOptions (f : QuestionRow → String) (s : DBState)
    (sid eid : String) : sessionFor (setCorrectOptions f s) sid eid = sessionFor s sid eid :=
  rfl

/-- C9: the whole output of `check_exam_eligibility` — for the same
random draws — is unchanged under any rewriting of the `correct_option`
column of the question bank: the session-start payload carries no
information about correct options (its question records, of type
`PayloadQuestion`, have no such field at all). -/
theorem C9_payload_independent_of_correct_options
    (s : DBState) (sid eid : String) (js : Nat → Nat) (f : QuestionRow → String) :
    startSession (setCorrectOptions f s) sid eid js = startSession s sid eid js := by
  cases hE : (examRows s eid).head? with
  | none =>
    have hE2 : (examRows (setCorrectOptions f s) eid).head? = none := by
      rw [examRows_setCorrectOptions, head?_map, hE]
      rfl
    simp [startSession, hE, hE2]
  | some row =>
    have hE2 : (examRows (setCorrectOptions f s) eid).head? =
        some { row with correct_option := f row } := by
      rw [examRows_setCorrectOptions, head?_map, hE]
      rfl
    simp only [startSession, hE, hE2, students_setCorrectOptions,
      countResults_setCorrectOptions, sessionFor_setCorrectOptions,
      realQuestions_setCorrectOptions, isEmpty_map, toPayload_map_correctOptions]

/-- C10: `get_questions_by_exam` returns, for every real (non-placeholder)
question of the requested exam, a record that includes its
`correct_option`; the handler takes no caller identity and its output is
independent of the students, results and sessions tables, so no
teacher-ownership, student-eligibility or authentication check restricts
the caller. -/
theorem C10_questions_endpoint_exposes_answers_without_auth :
    (∀ (s : DBState) (eid : String) (q : QuestionRow), q ∈ realQuestions s eid →
      toTeacherView q ∈ getQuestionsByExam s eid ∧
      (toTeacherView q).correct_option = q.correct_option) ∧
    (∀ (qs : List QuestionRow) (st st2 : List StudentRow) (r r2 : List ResultRow)
        (ss ss2 : List SessionRow) (eid : String),
      getQuestionsByExam ⟨qs, st, r, ss⟩ eid = getQuestionsByExam ⟨qs, st2, r2, ss2⟩ eid) := by
  constructor
  · intro s eid q hq
    exact ⟨List.mem_map_of_mem toTeacherView hq, rfl⟩
  · intro qs st st2 r r2 ss ss2 eid
    rfl

/-- C10 witness: the exposure theorem at the fixture exam — the answer
key of `Q1` is served to an anonymous caller. -/
theorem C10_exposure_witness :
    toTeacherView q1Row ∈ getQuestionsByExam stateBase "e" ∧
    (toTeacherView q1Row).correct_option = "A" := by
  obtain ⟨hmem, hcor⟩ :=
    (C10_questions_endpoint_exposes_answers_without_auth).1 stateBase "e" q1Row (by decide)
  refine ⟨hmem, ?_⟩
  rw [hcor]
  rfl

end ExamServer
